import Mathlib

set_option linter.unusedVariables false

/-!
# Verification of the VHDL configuration-declaration formatter

Shallow embedding of `src/vhdl_lang/src/formatting/configuration.rs`.

The printer walks a parsed syntax tree and writes to an output sink
(`Buffer`).  We model the sink as a trace: a `List OutEvent` of the
primitive operations the printer performs, in order.  External
collaborators (the context-clause formatter, declaration formatter,
name formatter, identifier-list formatter and map-aspect formatter)
are out of scope of the core, so each call to one of them is modelled
as a single opaque trace event carrying the argument it received.

The fatal `unreachable!` on a block configuration with a non-empty
use-clause list is modelled with `Except`: a formatter that can abort
returns `Except FmtError (List OutEvent)`, and an abort produces no
trace at all (a Rust panic aborts the printing operation).
-/

namespace VhdlFmt

/-- A token span `[start_token, end_token]` recorded at parse time. -/
structure TokenSpan where
  start_token : Nat
  end_token : Nat
deriving DecidableEq, Repr

/-- A syntax-tree payload together with its token span
(mirrors `WithTokenSpan<T>` in the ast crate). -/
structure WithTokenSpan (A : Type) where
  item : A
  span : TokenSpan
deriving DecidableEq, Repr

/-- An abstract name; the name formatter is an external collaborator,
so the payload is opaque. -/
structure Name where
  id : Nat
deriving DecidableEq, Repr

/-- An identifier carrying the token it was parsed from (mirrors the
`Ident`-like payloads whose `token` field the printer reads). -/
structure Ident where
  token : Nat
deriving DecidableEq, Repr

/-- Opaque payload of a use clause attached to a block configuration.
The printer never reads its fields: a non-empty list is fatal. -/
structure UseClause where
  id : Nat
deriving DecidableEq, Repr

/-- Opaque payload of a generic-map or port-map aspect; the map-aspect
formatter is an external collaborator. -/
structure MapAspect where
  id : Nat
deriving DecidableEq, Repr

/-- Opaque payload of one declarative item of the configuration. -/
structure Decl where
  id : Nat
deriving DecidableEq, Repr

/-- Opaque payload of one context-clause item; the printer only reads
its span (for `line_break_preserve_whitespace`). -/
structure ContextItem where
  id : Nat
  span : TokenSpan
deriving DecidableEq, Repr

/-- Token kinds.  The printer inspects exactly one kind, `Comma`
(the peek-ahead in `format_v_unit_indication`); every other kind is
collapsed into `Other`. -/
inductive Kind where
  | Comma
  | Other
deriving DecidableEq, Repr

/-- A lexical token as seen by the printer: only its kind matters. -/
structure Token where
  kind : Kind
deriving DecidableEq, Repr

/-- The token source (`TokenAccess`): an indexable sequence of tokens,
queried only via `get_token`. -/
structure TokenAccess where
  get_token : Nat → Option Token

/-- The formatter object; the only state the configuration printer
reads from it is the token source `tokens`. -/
structure VHDLFormatter where
  tokens : TokenAccess

/-- One primitive operation performed on the output sink, or one call
to an external sub-formatter (kept opaque, with its argument). -/
inductive OutEvent where
  /-- `format_token_id`: emit the exact source text of token `id`. -/
  | copyToken (id : Nat)
  /-- `push_whitespace`: emit exactly one space character. -/
  | whitespace
  /-- `line_break`: emit a newline (blank-line coalescing is the sink's
  business). -/
  | lineBreak
  /-- `line_break_preserve_whitespace` after token `tok` (external). -/
  | lineBreakPreserve (tok : Nat)
  /-- start of an `indented!` scope. -/
  | indentIn
  /-- end of an `indented!` scope. -/
  | indentOut
  /-- call to the external `format_context_clause`. -/
  | contextClause (items : List ContextItem)
  /-- call to the external `format_declarations`. -/
  | declarations (decls : List Decl)
  /-- call to the external `format_name`. -/
  | formatName (n : WithTokenSpan Name)
  /-- call to the external `format_ident_list`. -/
  | identList (labels : List Ident)
  /-- call to the external `format_map_aspect`. -/
  | mapAspect (m : MapAspect)
deriving DecidableEq, Repr

/-- The single fatal error class of the printer: the
unsupported-construct violation (`unreachable!("Not implemented on AST
side")`). -/
inductive FmtError where
  | unsupported
deriving DecidableEq, Repr

/-- Entity aspect of a binding indication (`EntityAspect` in the ast). -/
inductive EntityAspect where
  | Entity (entity : WithTokenSpan Name) (architecture : Option Ident)
  | Configuration (config : WithTokenSpan Name)
  | Open
deriving DecidableEq, Repr

/-- Instantiation target of a component specification
(`InstantiationList` in the ast). -/
inductive InstantiationList where
  | Labels (labels : List Ident)
  | Others
  | All
deriving DecidableEq, Repr

/-- A verification-unit binding indication: `use vunit name, ...;`. -/
structure VUnitBindingIndication where
  vunit_list : List (WithTokenSpan Name)
  span : TokenSpan
deriving DecidableEq, Repr

/-- A binding indication: `use entity|configuration|open ...` with
optional generic and port maps. -/
structure BindingIndication where
  entity_aspect : Option EntityAspect
  generic_map : Option MapAspect
  port_map : Option MapAspect
  span : TokenSpan
deriving DecidableEq, Repr

/-- A component specification: `for <labels|others|all> : <name>`. -/
structure ComponentSpecification where
  instantiation_list : InstantiationList
  component_name : WithTokenSpan Name
  colon_token : Nat
  span : TokenSpan
deriving DecidableEq, Repr

mutual
/-- A block configuration: `for <block_spec> <items> end for;`.
Fields are those the printer reads (`block_spec`, `use_clauses`,
`items`, `span`). -/
inductive BlockConfiguration where
  | mk (block_spec : WithTokenSpan Name) (use_clauses : List UseClause)
       (items : List ConfigurationItem) (span : TokenSpan)

/-- A configuration item: tagged union over block and component
configurations. -/
inductive ConfigurationItem where
  | Block (block_configuration : BlockConfiguration)
  | Component (component_configuration : ComponentConfiguration)

/-- A component configuration: component specification, optional
binding indication, vunit bindings and an optional nested block. -/
inductive ComponentConfiguration where
  | mk (spec : ComponentSpecification) (bind_ind : Option BindingIndication)
       (vunit_bind_inds : List VUnitBindingIndication)
       (block_config : Option BlockConfiguration) (span : TokenSpan)
end

/-- Projection: the block spec name of a block configuration. -/
def BlockConfiguration.block_spec : BlockConfiguration → WithTokenSpan Name
  | .mk b _ _ _ => b

/-- Projection: the use-clause list of a block configuration. -/
def BlockConfiguration.use_clauses : BlockConfiguration → List UseClause
  | .mk _ u _ _ => u

/-- Projection: the item list of a block configuration. -/
def BlockConfiguration.items : BlockConfiguration → List ConfigurationItem
  | .mk _ _ i _ => i

/-- Projection: the span of a block configuration. -/
def BlockConfiguration.span : BlockConfiguration → TokenSpan
  | .mk _ _ _ s => s

/-- Projection: the component specification of a component
configuration. -/
def ComponentConfiguration.spec : ComponentConfiguration → ComponentSpecification
  | .mk s _ _ _ _ => s

/-- Projection: the optional binding indication. -/
def ComponentConfiguration.bind_ind : ComponentConfiguration → Option BindingIndication
  | .mk _ b _ _ _ => b

/-- Projection: the vunit binding indications. -/
def ComponentConfiguration.vunit_bind_inds : ComponentConfiguration → List VUnitBindingIndication
  | .mk _ _ v _ _ => v

/-- Projection: the optional nested block configuration. -/
def ComponentConfiguration.block_config : ComponentConfiguration → Option BlockConfiguration
  | .mk _ _ _ b _ => b

/-- Projection: the span of a component configuration. -/
def ComponentConfiguration.span : ComponentConfiguration → TokenSpan
  | .mk _ _ _ _ s => s

/-- A configuration declaration; fields are those the printer reads:
context clause, declarative items, vunit bindings, the root block
configuration, the token id of the closing `end` keyword, and the
span. -/
structure ConfigurationDeclaration where
  context_clause : List ContextItem
  decl : List Decl
  vunit_bind_inds : List VUnitBindingIndication
  block_config : BlockConfiguration
  end_token : Nat
  span : TokenSpan

/-- A configuration specification (`for ... use ...` outside a block);
`end_token` is `some` exactly when the optional `end for;` was present
in source. -/
structure ConfigurationSpecification where
  spec : ComponentSpecification
  bind_ind : BindingIndication
  vunit_bind_inds : List VUnitBindingIndication
  end_token : Option Nat
  span : TokenSpan

/-- Modelled from the spec: `format_token_span` lives outside the core
(`formatting` module shared helpers).  Per §4.1 the five-token header
is "copied verbatim by token id" and rendered with single spaces, so
the helper emits `copy_token` for each id of the span in order with
exactly one space between consecutive tokens. -/
def format_token_span (span : TokenSpan) : List OutEvent :=
  List.intersperse OutEvent.whitespace
    ((List.range (span.end_token + 1 - span.start_token)).map
      (fun i => OutEvent.copyToken (span.start_token + i)))

/-- `format_component_specification` (configuration.rs lines 175-192). -/
def format_component_specification (spec : ComponentSpecification) :
    List OutEvent :=
  [OutEvent.copyToken spec.span.start_token, OutEvent.whitespace] ++
  (match spec.instantiation_list with
   | InstantiationList.Labels labels => [OutEvent.identList labels]
   | InstantiationList.Others => [OutEvent.copyToken (spec.span.start_token + 1)]
   | InstantiationList.All => [OutEvent.copyToken (spec.span.start_token + 1)]) ++
  [OutEvent.copyToken spec.colon_token, OutEvent.whitespace,
   OutEvent.formatName spec.component_name]

/-- The comma peek-ahead of `format_v_unit_indication`:
`self.tokens.get_token(id).is_some_and(|token| token.kind == Kind::Comma)`. -/
def comma_at (f : VHDLFormatter) (id : Nat) : Bool :=
  match f.tokens.get_token id with
  | some token => token.kind == Kind.Comma
  | none => false

/-- The trace contributed by one element of the vunit list inside
`format_v_unit_indication` (lines 205-215): the name, then — only if
the token right after the name's span is a comma — that comma and one
space. -/
def format_v_unit_element (f : VHDLFormatter) (v_unit : WithTokenSpan Name) :
    List OutEvent :=
  [OutEvent.formatName v_unit] ++
  (if comma_at f (v_unit.span.end_token + 1) then
    [OutEvent.copyToken (v_unit.span.end_token + 1), OutEvent.whitespace]
   else [])

/-- `format_v_unit_indication` (configuration.rs lines 194-217). -/
def format_v_unit_indication (f : VHDLFormatter)
    (v : VUnitBindingIndication) : List OutEvent :=
  [OutEvent.copyToken v.span.start_token, OutEvent.whitespace,
   OutEvent.copyToken (v.span.start_token + 1), OutEvent.whitespace] ++
  (v.vunit_list.map (format_v_unit_element f)).flatten ++
  [OutEvent.copyToken v.span.end_token]

/-- `format_v_unit_binding_indications` (lines 49-58): a line break
before each vunit indication. -/
def format_v_unit_binding_indications (f : VHDLFormatter)
    (v_units : List VUnitBindingIndication) : List OutEvent :=
  (v_units.map (fun v => OutEvent.lineBreak :: format_v_unit_indication f v)).flatten

/-- `format_binding_indication` (configuration.rs lines 118-153). -/
def format_binding_indication (f : VHDLFormatter)
    (indication : BindingIndication) : List OutEvent :=
  [OutEvent.copyToken indication.span.start_token] ++
  (match indication.entity_aspect with
   | some aspect =>
     [OutEvent.whitespace,
      OutEvent.copyToken (indication.span.start_token + 1),
      OutEvent.whitespace] ++
     (match aspect with
      | EntityAspect.Entity entity architecture =>
        [OutEvent.formatName entity] ++
        (match architecture with
         | some arch =>
           [OutEvent.copyToken (arch.token - 1),
            OutEvent.copyToken arch.token,
            OutEvent.copyToken (arch.token + 1)]
         | none => [])
      | EntityAspect.Configuration config => [OutEvent.formatName config]
      | EntityAspect.Open => [])
   | none => []) ++
  (match indication.generic_map with
   | some map_aspect =>
     [OutEvent.indentIn, OutEvent.lineBreak, OutEvent.mapAspect map_aspect,
      OutEvent.indentOut]
   | none => []) ++
  (match indication.port_map with
   | some map_aspect =>
     [OutEvent.indentIn, OutEvent.lineBreak, OutEvent.mapAspect map_aspect,
      OutEvent.indentOut]
   | none => []) ++
  [OutEvent.copyToken indication.span.end_token]

mutual
/-- `format_block_configuration` (configuration.rs lines 60-89).
A non-empty use-clause list hits `unreachable!("Not implemented on AST
side")`, modelled as `Except.error FmtError.unsupported` before any
trace is produced. -/
def format_block_configuration (f : VHDLFormatter) :
    BlockConfiguration → Except FmtError (List OutEvent)
  | BlockConfiguration.mk block_spec use_clauses items span =>
    if !use_clauses.isEmpty then
      Except.error FmtError.unsupported
    else do
      let inner ← format_configuration_items f items
      pure ([OutEvent.copyToken span.start_token, OutEvent.whitespace,
             OutEvent.formatName block_spec, OutEvent.indentIn] ++
            inner ++
            [OutEvent.indentOut, OutEvent.lineBreak,
             OutEvent.copyToken (span.end_token - 2), OutEvent.whitespace,
             OutEvent.copyToken (span.end_token - 1),
             OutEvent.copyToken span.end_token])

/-- The item loop inside `format_block_configuration` (lines 69-79):
each item is preceded by a line break and dispatched by tag. -/
def format_configuration_items (f : VHDLFormatter) :
    List ConfigurationItem → Except FmtError (List OutEvent)
  | [] => pure []
  | item :: rest => do
    let head ←
      match item with
      | ConfigurationItem.Block block_configuration =>
        format_block_configuration f block_configuration
      | ConfigurationItem.Component component_configuration =>
        format_component_configuration f component_configuration
    let tail ← format_configuration_items f rest
    pure ((OutEvent.lineBreak :: head) ++ tail)

/-- `format_component_configuration` (configuration.rs lines 91-116).
The source guards the nested block with `if let Some(block_configuration)`;
here that split is the top-level pattern, the two arms differing only
in the `line_break` plus nested-block trace. -/
def format_component_configuration (f : VHDLFormatter) :
    ComponentConfiguration → Except FmtError (List OutEvent)
  | ComponentConfiguration.mk spec bind_ind vunit_bind_inds
      (some block_configuration) span => do
    let t ← format_block_configuration f block_configuration
    pure (format_component_specification spec ++
          [OutEvent.indentIn] ++
          (match bind_ind with
           | some binding_indication =>
             OutEvent.lineBreak :: format_binding_indication f binding_indication
           | none => []) ++
          format_v_unit_binding_indications f vunit_bind_inds ++
          (OutEvent.lineBreak :: t) ++
          [OutEvent.indentOut, OutEvent.lineBreak,
           OutEvent.copyToken (span.end_token - 2), OutEvent.whitespace,
           OutEvent.copyToken (span.end_token - 1),
           OutEvent.copyToken span.end_token])
  | ComponentConfiguration.mk spec bind_ind vunit_bind_inds none span =>
    pure (format_component_specification spec ++
          [OutEvent.indentIn] ++
          (match bind_ind with
           | some binding_indication =>
             OutEvent.lineBreak :: format_binding_indication f binding_indication
           | none => []) ++
          format_v_unit_binding_indications f vunit_bind_inds ++
          [OutEvent.indentOut, OutEvent.lineBreak,
           OutEvent.copyToken (span.end_token - 2), OutEvent.whitespace,
           OutEvent.copyToken (span.end_token - 1),
           OutEvent.copyToken span.end_token])
end

/-- `format_configuration` (configuration.rs lines 18-47), the entry
point for a configuration declaration. -/
def format_configuration (f : VHDLFormatter)
    (configuration : ConfigurationDeclaration) :
    Except FmtError (List OutEvent) := do
  let blockT ← format_block_configuration f configuration.block_config
  pure ([OutEvent.contextClause configuration.context_clause] ++
        (match configuration.context_clause.getLast? with
         | some item => [OutEvent.lineBreakPreserve item.span.end_token]
         | none => []) ++
        format_token_span
          (TokenSpan.mk configuration.span.start_token
            (configuration.span.start_token + 4)) ++
        [OutEvent.indentIn, OutEvent.declarations configuration.decl] ++
        format_v_unit_binding_indications f configuration.vunit_bind_inds ++
        [OutEvent.lineBreak] ++
        blockT ++
        [OutEvent.indentOut, OutEvent.lineBreak] ++
        format_token_span
          (TokenSpan.mk configuration.end_token
            (configuration.span.end_token - 1)) ++
        [OutEvent.copyToken configuration.span.end_token])

/-- `format_configuration_specification` (configuration.rs lines
155-173). -/
def format_configuration_specification (f : VHDLFormatter)
    (configuration : ConfigurationSpecification) : List OutEvent :=
  format_component_specification configuration.spec ++
  [OutEvent.indentIn, OutEvent.lineBreak] ++
  format_binding_indication f configuration.bind_ind ++
  format_v_unit_binding_indications f configuration.vunit_bind_inds ++
  [OutEvent.indentOut] ++
  (match configuration.end_token with
   | some end_token =>
     [OutEvent.lineBreak, OutEvent.copyToken end_token, OutEvent.whitespace,
      OutEvent.copyToken (end_token + 1),
      OutEvent.copyToken configuration.span.end_token]
   | none => [])

mutual
/-- Whether a block configuration and every block configuration nested
anywhere below it carries an empty use-clause list — the precondition
under which the printer never hits its fatal violation. -/
def no_use_clauses_block : BlockConfiguration → Bool
  | BlockConfiguration.mk _ use_clauses items _ =>
    use_clauses.isEmpty && no_use_clauses_items items

/-- `no_use_clauses_block`, over an item list. -/
def no_use_clauses_items : List ConfigurationItem → Bool
  | [] => true
  | item :: rest => no_use_clauses_item item && no_use_clauses_items rest

/-- `no_use_clauses_block`, over one configuration item. -/
def no_use_clauses_item : ConfigurationItem → Bool
  | ConfigurationItem.Block block_configuration =>
    no_use_clauses_block block_configuration
  | ConfigurationItem.Component component_configuration =>
    no_use_clauses_component component_configuration

/-- `no_use_clauses_block`, over a component configuration. -/
def no_use_clauses_component : ComponentConfiguration → Bool
  | ComponentConfiguration.mk _ _ _ (some block_configuration) _ =>
    no_use_clauses_block block_configuration
  | ComponentConfiguration.mk _ _ _ none _ => true
end

mutual
/-- Spec description, §4.2 (claim C3): emits the `for` token and a
space and the block-spec name, then one scoped-indentation region in
which each Configuration Item is preceded by a line break and
dispatched by tag (Block items recurse, Component items delegate to
§4.3), then a line break and `end for;` copied as the three tokens at
offsets `end_token - 2`, `end_token - 1`, `end_token`, with a space
only between `end` and `for`. -/
def spec_block_configuration (f : VHDLFormatter) :
    BlockConfiguration → List OutEvent
  | BlockConfiguration.mk block_spec _ items span =>
    [OutEvent.copyToken span.start_token, OutEvent.whitespace,
     OutEvent.formatName block_spec, OutEvent.indentIn] ++
    spec_configuration_items f items ++
    [OutEvent.indentOut, OutEvent.lineBreak,
     OutEvent.copyToken (span.end_token - 2), OutEvent.whitespace,
     OutEvent.copyToken (span.end_token - 1),
     OutEvent.copyToken span.end_token]

/-- Spec description of the item region of §4.2: each item preceded by
a line break and dispatched by tag. -/
def spec_configuration_items (f : VHDLFormatter) :
    List ConfigurationItem → List OutEvent
  | [] => []
  | item :: rest =>
    OutEvent.lineBreak ::
    ((match item with
      | ConfigurationItem.Block block_configuration =>
        spec_block_configuration f block_configuration
      | ConfigurationItem.Component component_configuration =>
        spec_component_configuration f component_configuration) ++
     spec_configuration_items f rest)

/-- Spec description, §4.3: the Component Specification, then inside a
scoped-indentation region the Binding Indication if present (preceded
by a line break), the verification-unit bindings, and the nested Block
Configuration if present (preceded by a line break); closes with the
same fixed-offset `end for;` pattern as §4.2. -/
def spec_component_configuration (f : VHDLFormatter) :
    ComponentConfiguration → List OutEvent
  | ComponentConfiguration.mk spec bind_ind vunit_bind_inds
      (some block_configuration) span =>
    format_component_specification spec ++
    [OutEvent.indentIn] ++
    (match bind_ind with
     | some binding_indication =>
       OutEvent.lineBreak :: format_binding_indication f binding_indication
     | none => []) ++
    format_v_unit_binding_indications f vunit_bind_inds ++
    (OutEvent.lineBreak :: spec_block_configuration f block_configuration) ++
    [OutEvent.indentOut, OutEvent.lineBreak,
     OutEvent.copyToken (span.end_token - 2), OutEvent.whitespace,
     OutEvent.copyToken (span.end_token - 1),
     OutEvent.copyToken span.end_token]
  | ComponentConfiguration.mk spec bind_ind vunit_bind_inds none span =>
    format_component_specification spec ++
    [OutEvent.indentIn] ++
    (match bind_ind with
     | some binding_indication =>
       OutEvent.lineBreak :: format_binding_indication f binding_indication
     | none => []) ++
    format_v_unit_binding_indications f vunit_bind_inds ++
    [OutEvent.indentOut, OutEvent.lineBreak,
     OutEvent.copyToken (span.end_token - 2), OutEvent.whitespace,
     OutEvent.copyToken (span.end_token - 1),
     OutEvent.copyToken span.end_token]
end

/-- Whether a trace event is the copy of a token that is a comma in
the token stream of `f`. -/
def is_comma_copy (f : VHDLFormatter) : OutEvent → Bool
  | OutEvent.copyToken id => comma_at f id
  | _ => false

/-- Number of copied comma tokens in a trace. -/
def comma_count (f : VHDLFormatter) (trace : List OutEvent) : Nat :=
  trace.countP (fun e => is_comma_copy f e)

/-- Every copied comma token in the trace is immediately followed by
exactly one space (a whitespace event that is itself not followed by
another whitespace event). -/
def commas_spaced (f : VHDLFormatter) : List OutEvent → Bool
  | [] => true
  | e :: rest =>
    (!(is_comma_copy f e) ||
      (match rest with
       | OutEvent.whitespace :: rest2 =>
         (match rest2 with
          | OutEvent.whitespace :: _ => false
          | _ => true)
       | _ => false)) && commas_spaced f rest

/-- The grammar-side hypothesis of claim C2: in the token stream, the
names of a verification-unit list are separated by commas — the token
right after each name but the last is a comma, and the token right
after the last name is not. -/
def vunit_separators (f : VHDLFormatter) : List (WithTokenSpan Name) → Bool
  | [] => true
  | [v] => !(comma_at f (v.span.end_token + 1))
  | v :: v2 :: rest =>
    comma_at f (v.span.end_token + 1) && vunit_separators f (v2 :: rest)

/-- A trace that neither opens nor closes an indentation scope. -/
def no_indent_events (trace : List OutEvent) : Bool :=
  trace.all fun e =>
    match e with
    | OutEvent.indentIn => false
    | OutEvent.indentOut => false
    | _ => true

/-! Concrete sample inputs used by the witness theorems. -/

/-- A token stream that has a comma at position 5 and an ordinary
token everywhere else. -/
def sample_formatter : VHDLFormatter :=
  VHDLFormatter.mk (TokenAccess.mk (fun n =>
    if n = 5 then some (Token.mk Kind.Comma) else some (Token.mk Kind.Other)))

/-- A finite token stream: ordinary tokens at positions below 10,
absent beyond. -/
def short_formatter : VHDLFormatter :=
  VHDLFormatter.mk (TokenAccess.mk (fun n =>
    if n < 10 then some (Token.mk Kind.Other) else none))

/-- A block configuration carrying one use clause (the fatal case). -/
def block_with_use_clause : BlockConfiguration :=
  BlockConfiguration.mk (WithTokenSpan.mk (Name.mk 0) (TokenSpan.mk 1 1))
    [UseClause.mk 0] [] (TokenSpan.mk 0 6)

/-- A component specification `for inst : comp`. -/
def sample_component_spec : ComponentSpecification :=
  ComponentSpecification.mk (InstantiationList.Labels [Ident.mk 3])
    (WithTokenSpan.mk (Name.mk 5) (TokenSpan.mk 5 5)) 4 (TokenSpan.mk 2 5)

/-- A block configuration containing one component item and one nested
block item, all use-clause lists empty. -/
def sample_nested_block : BlockConfiguration :=
  BlockConfiguration.mk (WithTokenSpan.mk (Name.mk 1) (TokenSpan.mk 1 1)) []
    [ConfigurationItem.Component
      (ComponentConfiguration.mk sample_component_spec none [] none
        (TokenSpan.mk 2 9)),
     ConfigurationItem.Block
      (BlockConfiguration.mk (WithTokenSpan.mk (Name.mk 2) (TokenSpan.mk 11 11))
        [] [] (TokenSpan.mk 10 14))]
    (TokenSpan.mk 0 18)

/-- A two-name verification-unit binding whose names sit at tokens 4
and 6, separated by the comma at token 5 (see `sample_formatter`). -/
def sample_vunit_binding : VUnitBindingIndication :=
  VUnitBindingIndication.mk
    [WithTokenSpan.mk (Name.mk 10) (TokenSpan.mk 4 4),
     WithTokenSpan.mk (Name.mk 11) (TokenSpan.mk 6 6)]
    (TokenSpan.mk 2 7)

/-- A one-name verification-unit binding whose name ends at token 9,
the last token of `short_formatter`: the peek at token 10 is absent. -/
def boundary_vunit_binding : VUnitBindingIndication :=
  VUnitBindingIndication.mk
    [WithTokenSpan.mk (Name.mk 12) (TokenSpan.mk 8 9)]
    (TokenSpan.mk 6 9)

/-- A small configuration declaration with a one-item context clause
and an empty root block. -/
def sample_configuration_declaration : ConfigurationDeclaration :=
  ConfigurationDeclaration.mk [ContextItem.mk 0 (TokenSpan.mk 0 3)]
    [Decl.mk 1] []
    (BlockConfiguration.mk (WithTokenSpan.mk (Name.mk 4) (TokenSpan.mk 10 10))
      [] [] (TokenSpan.mk 9 13))
    14 (TokenSpan.mk 4 17)

/-- A binding indication `use entity <name>(<arch>);` with both maps
present. -/
def sample_binding_indication : BindingIndication :=
  BindingIndication.mk
    (some (EntityAspect.Entity
      (WithTokenSpan.mk (Name.mk 7) (TokenSpan.mk 2 2)) (some (Ident.mk 4))))
    (some (MapAspect.mk 1)) (some (MapAspect.mk 2)) (TokenSpan.mk 0 12)

/-- A configuration specification whose optional `end for;` was
present in source (`end_token` recorded). -/
def spec_with_end : ConfigurationSpecification :=
  ConfigurationSpecification.mk sample_component_spec
    (BindingIndication.mk none none none (TokenSpan.mk 6 7)) [] (some 8)
    (TokenSpan.mk 2 10)

/-- A configuration specification whose optional `end for;` was absent
(`end_token` not recorded). -/
def spec_without_end : ConfigurationSpecification :=
  ConfigurationSpecification.mk sample_component_spec
    (BindingIndication.mk none none none (TokenSpan.mk 6 7)) [] none
    (TokenSpan.mk 2 7)

/-! Refinement of the recursive printers against the spec description:
on any tree whose use-clause lists are all empty, the printers succeed
and produce exactly the §4.2/§4.3 traces.  Proved by mutual induction
mirroring the printers own recursion. -/

mutual
theorem format_block_refines (f : VHDLFormatter) :
    ∀ b, no_use_clauses_block b = true →
      format_block_configuration f b = Except.ok (spec_block_configuration f b)
  | BlockConfiguration.mk block_spec use_clauses items span, h => by
    rw [no_use_clauses_block, Bool.and_eq_true] at h
    rw [format_block_configuration, format_items_refines f items h.2,
      spec_block_configuration]
    simp [h.1]

theorem format_items_refines (f : VHDLFormatter) :
    ∀ items, no_use_clauses_items items = true →
      format_configuration_items f items =
        Except.ok (spec_configuration_items f items)
  | [], _ => by
    rw [format_configuration_items, spec_configuration_items]
    rfl
  | ConfigurationItem.Block b :: rest, h => by
    rw [no_use_clauses_items, Bool.and_eq_true, no_use_clauses_item] at h
    rw [format_configuration_items, format_block_refines f b h.1,
      format_items_refines f rest h.2, spec_configuration_items]
    rfl
  | ConfigurationItem.Component c :: rest, h => by
    rw [no_use_clauses_items, Bool.and_eq_true, no_use_clauses_item] at h
    rw [format_configuration_items, format_component_refines f c h.1,
      format_items_refines f rest h.2, spec_configuration_items]
    rfl

theorem format_component_refines (f : VHDLFormatter) :
    ∀ c, no_use_clauses_component c = true →
      format_component_configuration f c =
        Except.ok (spec_component_configuration f c)
  | ComponentConfiguration.mk spec bind_ind vunit_bind_inds (some bc) span, h => by
    rw [no_use_clauses_component] at h
    cases bind_ind with
    | some binding_indication =>
      rw [format_component_configuration, format_block_refines f bc h,
        spec_component_configuration]
      rfl
    | none =>
      rw [format_component_configuration, format_block_refines f bc h,
        spec_component_configuration]
      rfl
  | ComponentConfiguration.mk spec bind_ind vunit_bind_inds none span, _ => by
    cases bind_ind with
    | some binding_indication =>
      rw [format_component_configuration, spec_component_configuration]
      rfl
    | none =>
      rw [format_component_configuration, spec_component_configuration]
      rfl
end

/-- Under the separated-by-commas hypothesis, the vunit-list region of
`format_v_unit_indication` copies exactly `length - 1` comma tokens. -/
theorem comma_count_flatten (f : VHDLFormatter) :
    ∀ vs, vunit_separators f vs = true →
      comma_count f ((vs.map (format_v_unit_element f)).flatten) = vs.length - 1
  | [], _ => by simp [comma_count]
  | [v], h => by
    simp [vunit_separators] at h
    simp [comma_count, format_v_unit_element, h, is_comma_copy]
  | v :: v2 :: rest, h => by
    rw [vunit_separators, Bool.and_eq_true] at h
    have ih := comma_count_flatten f (v2 :: rest) h.2
    simp only [comma_count, List.map_cons, List.flatten_cons,
      List.countP_append] at ih ⊢
    simp only [format_v_unit_element, h.1, if_pos, List.countP_cons,
      List.countP_nil, is_comma_copy] at ih ⊢
    simp [is_comma_copy, h.1, List.length_cons] at ih ⊢
    omega

/-- Under the separated-by-commas hypothesis, every comma copied in the
vunit-list region is followed by exactly one space, for any suffix that
itself satisfies the check. -/
theorem commas_spaced_flatten (f : VHDLFormatter) :
    ∀ vs tail, vunit_separators f vs = true → commas_spaced f tail = true →
      commas_spaced f (((vs.map (format_v_unit_element f)).flatten) ++ tail) =
        true
  | [], tail, _, ht => by simpa using ht
  | [v], tail, h, ht => by
    simp [vunit_separators] at h
    simp [format_v_unit_element, h, commas_spaced, is_comma_copy, ht]
  | v :: v2 :: rest, tail, h, ht => by
    rw [vunit_separators, Bool.and_eq_true] at h
    have ih := commas_spaced_flatten f (v2 :: rest) tail h.2 ht
    simp only [List.map_cons, List.flatten_cons, List.cons_append,
      List.append_assoc] at ih ⊢
    simp only [format_v_unit_element, h.1, if_pos, List.cons_append,
      List.singleton_append, List.nil_append] at ih ⊢
    simp [commas_spaced, is_comma_copy, h.1] at ih ⊢
    exact ih

/-- Claim C1: for every Block Configuration whose use-clause list is
non-empty, `format_block_configuration` aborts fatally with the
unsupported-construct violation before emitting any output for that
node; it never silently skips the use clauses and continues printing
(the result is the error, with no trace at all). -/
theorem c1_use_clauses_abort (f : VHDLFormatter)
    (b : BlockConfiguration) (h : b.use_clauses ≠ []) :
    format_block_configuration f b = Except.error FmtError.unsupported := by
  cases b with
  | mk block_spec use_clauses items span =>
    rw [BlockConfiguration.use_clauses] at h
    cases use_clauses with
    | nil => exact absurd rfl h
    | cons u us =>
      rw [format_block_configuration]
      rfl

/-- Witness for C1 at a concrete block configuration carrying one use
clause. -/
theorem c1_use_clauses_abort_witness :
    block_with_use_clause.use_clauses ≠ [] ∧
    format_block_configuration sample_formatter block_with_use_clause =
      Except.error FmtError.unsupported :=
  ⟨by decide, c1_use_clauses_abort sample_formatter
    block_with_use_clause (by decide)⟩

/-- Claim C2: `format_v_unit_indication` emits `use`, one space, the
`vunit` keyword token, one space, then each name in list order, each
followed by the copied comma at its span end + 1 plus one space
exactly when that token exists and is a comma (this is the trace
equality, `format_v_unit_element` holding the per-name conditional);
and under the grammar hypothesis that the `k ≥ 1` names are separated
by commas in the token stream (`vunit_separators`, with the
surrounding `use`/`vunit`/`;` tokens not commas), the output contains
exactly `k - 1` copied commas, each followed by exactly one space. -/
theorem c2_vunit_comma_fidelity (f : VHDLFormatter)
    (v : VUnitBindingIndication)
    (hne : v.vunit_list ≠ [])
    (hsep : vunit_separators f v.vunit_list = true)
    (hu : comma_at f v.span.start_token = false)
    (hk : comma_at f (v.span.start_token + 1) = false)
    (he : comma_at f v.span.end_token = false) :
    format_v_unit_indication f v =
      [OutEvent.copyToken v.span.start_token, OutEvent.whitespace,
       OutEvent.copyToken (v.span.start_token + 1), OutEvent.whitespace] ++
      (v.vunit_list.map (format_v_unit_element f)).flatten ++
      [OutEvent.copyToken v.span.end_token] ∧
    comma_count f (format_v_unit_indication f v) = v.vunit_list.length - 1 ∧
    commas_spaced f (format_v_unit_indication f v) = true := by
  refine ⟨rfl, ?_, ?_⟩
  · have hmid := comma_count_flatten f v.vunit_list hsep
    rw [comma_count] at hmid
    have h1 : is_comma_copy f (OutEvent.copyToken v.span.start_token) = false := by
      simp [is_comma_copy, hu]
    have h2 : is_comma_copy f (OutEvent.copyToken (v.span.start_token + 1)) = false := by
      simp [is_comma_copy, hk]
    have h3 : is_comma_copy f (OutEvent.copyToken v.span.end_token) = false := by
      simp [is_comma_copy, he]
    have h4 : is_comma_copy f OutEvent.whitespace = false := rfl
    rw [format_v_unit_indication]
    simp only [comma_count, List.countP_append, List.cons_append,
      List.nil_append, List.countP_cons, List.countP_nil, h1, h2, h3, h4]
    simp only [Bool.false_eq_true, if_false, Nat.add_zero, Nat.zero_add]
    omega
  · have hend : commas_spaced f [OutEvent.copyToken v.span.end_token] = true := by
      simp [commas_spaced, is_comma_copy, he]
    have hmid := commas_spaced_flatten f v.vunit_list
      [OutEvent.copyToken v.span.end_token] hsep hend
    rw [format_v_unit_indication]
    simp only [List.cons_append, List.nil_append, List.append_assoc]
    simp [commas_spaced, is_comma_copy, hu, hk]
    simpa using hmid

/-- Witness for C2 at a two-name list separated by the comma token 5 of
`sample_formatter`: exactly one comma in the output, spaced. -/
theorem c2_vunit_comma_fidelity_witness :
    sample_vunit_binding.vunit_list ≠ [] ∧
    vunit_separators sample_formatter sample_vunit_binding.vunit_list = true ∧
    comma_count sample_formatter
      (format_v_unit_indication sample_formatter sample_vunit_binding) = 1 ∧
    commas_spaced sample_formatter
      (format_v_unit_indication sample_formatter sample_vunit_binding) = true :=
  ⟨by decide, by decide,
   (c2_vunit_comma_fidelity sample_formatter sample_vunit_binding (by decide)
     (by decide) (by decide) (by decide) (by decide)).2.1,
   (c2_vunit_comma_fidelity sample_formatter sample_vunit_binding (by decide)
     (by decide) (by decide) (by decide) (by decide)).2.2⟩

/-- Claim C3: for every Block Configuration with empty use-clause
lists, `format_block_configuration` emits the `for` token (span
start), a space, the block-spec name, then inside one
scoped-indentation region each Configuration Item preceded by a line
break and dispatched by tag (Block items recurse, Component items go
to the component printer), then a line break and the closing
`end for;` copied as the tokens at `end_token - 2`, `end_token - 1`
and `end_token`, with a space only between `end` and `for` — exactly
the trace `spec_block_configuration` transcribed from §4.2. -/
theorem c3_block_configuration_layout (f : VHDLFormatter)
    (b : BlockConfiguration) (h : no_use_clauses_block b = true) :
    format_block_configuration f b = Except.ok (spec_block_configuration f b) :=
  format_block_refines f b h

/-- Witness for C3 at a block containing one component item and one
nested block item. -/
theorem c3_block_configuration_layout_witness :
    no_use_clauses_block sample_nested_block = true ∧
    format_block_configuration sample_formatter sample_nested_block =
      Except.ok (spec_block_configuration sample_formatter sample_nested_block) :=
  ⟨by decide, c3_block_configuration_layout sample_formatter
    sample_nested_block (by decide)⟩

/-- Claim C4: `format_configuration` emits the context clause followed
by a line break exactly when the context clause is non-empty, then the
header copied as the five tokens `span.start_token` through
`span.start_token + 4` (second conjunct), then the indented region
with declarations, vunit bindings, a blank line and the root block
configuration, then the closing form copied verbatim by token id from
`end_token` through `span.end_token`, which is what makes each closing
form round-trip to itself. -/
theorem c4_configuration_declaration_layout (f : VHDLFormatter)
    (configuration : ConfigurationDeclaration)
    (h : no_use_clauses_block configuration.block_config = true) :
    (format_configuration f configuration =
      Except.ok
        ([OutEvent.contextClause configuration.context_clause] ++
         (if hcc : configuration.context_clause = [] then []
          else [OutEvent.lineBreakPreserve
            ((configuration.context_clause.getLast hcc).span.end_token)]) ++
         format_token_span (TokenSpan.mk configuration.span.start_token
           (configuration.span.start_token + 4)) ++
         [OutEvent.indentIn, OutEvent.declarations configuration.decl] ++
         format_v_unit_binding_indications f configuration.vunit_bind_inds ++
         [OutEvent.lineBreak] ++
         spec_block_configuration f configuration.block_config ++
         [OutEvent.indentOut, OutEvent.lineBreak] ++
         format_token_span (TokenSpan.mk configuration.end_token
           (configuration.span.end_token - 1)) ++
         [OutEvent.copyToken configuration.span.end_token])) ∧
    (format_token_span (TokenSpan.mk configuration.span.start_token
        (configuration.span.start_token + 4)) =
      [OutEvent.copyToken configuration.span.start_token, OutEvent.whitespace,
       OutEvent.copyToken (configuration.span.start_token + 1),
       OutEvent.whitespace,
       OutEvent.copyToken (configuration.span.start_token + 2),
       OutEvent.whitespace,
       OutEvent.copyToken (configuration.span.start_token + 3),
       OutEvent.whitespace,
       OutEvent.copyToken (configuration.span.start_token + 4)]) := by
  constructor
  · rw [format_configuration, format_block_refines f _ h]
    by_cases hcc : configuration.context_clause = []
    · simp [hcc]
    · rw [List.getLast?_eq_getLast_of_ne_nil hcc]
      simp [hcc]
  · have h5 : configuration.span.start_token + 4 + 1 -
        configuration.span.start_token = 5 := by omega
    rw [format_token_span]
    simp [h5, List.range_succ, List.intersperse]

/-- Witness for C4 at a small configuration declaration with a one-item
context clause. -/
theorem c4_configuration_declaration_layout_witness :
    no_use_clauses_block sample_configuration_declaration.block_config = true ∧
    format_configuration sample_formatter sample_configuration_declaration =
      Except.ok
        ([OutEvent.contextClause sample_configuration_declaration.context_clause] ++
         (if hcc : sample_configuration_declaration.context_clause = [] then []
          else [OutEvent.lineBreakPreserve
            ((sample_configuration_declaration.context_clause.getLast hcc).span.end_token)]) ++
         format_token_span (TokenSpan.mk sample_configuration_declaration.span.start_token
           (sample_configuration_declaration.span.start_token + 4)) ++
         [OutEvent.indentIn,
          OutEvent.declarations sample_configuration_declaration.decl] ++
         format_v_unit_binding_indications sample_formatter
           sample_configuration_declaration.vunit_bind_inds ++
         [OutEvent.lineBreak] ++
         spec_block_configuration sample_formatter
           sample_configuration_declaration.block_config ++
         [OutEvent.indentOut, OutEvent.lineBreak] ++
         format_token_span (TokenSpan.mk sample_configuration_declaration.end_token
           (sample_configuration_declaration.span.end_token - 1)) ++
         [OutEvent.copyToken sample_configuration_declaration.span.end_token]) :=
  ⟨by decide, (c4_configuration_declaration_layout sample_formatter
    sample_configuration_declaration (by decide)).1⟩

/-- Claim C5: for a Binding Indication whose entity aspect is the
Entity variant with an architecture identifier, the printer emits the
entity name and then copies exactly the tokens `arch.token - 1`,
`arch.token` and `arch.token + 1`, with no whitespace between the
entity name and this suffix or between its three tokens. -/
theorem c5_entity_aspect_architecture_suffix (f : VHDLFormatter)
    (entity : WithTokenSpan Name) (arch : Ident)
    (generic_map port_map : Option MapAspect) (span : TokenSpan) :
    format_binding_indication f
      (BindingIndication.mk (some (EntityAspect.Entity entity (some arch)))
        generic_map port_map span) =
      [OutEvent.copyToken span.start_token, OutEvent.whitespace,
       OutEvent.copyToken (span.start_token + 1), OutEvent.whitespace,
       OutEvent.formatName entity, OutEvent.copyToken (arch.token - 1),
       OutEvent.copyToken arch.token, OutEvent.copyToken (arch.token + 1)] ++
      (match generic_map with
       | some map_aspect =>
         [OutEvent.indentIn, OutEvent.lineBreak, OutEvent.mapAspect map_aspect,
          OutEvent.indentOut]
       | none => []) ++
      (match port_map with
       | some map_aspect =>
         [OutEvent.indentIn, OutEvent.lineBreak, OutEvent.mapAspect map_aspect,
          OutEvent.indentOut]
       | none => []) ++
      [OutEvent.copyToken span.end_token] := rfl

/-- Claim C6: a Component Configuration with no binding indication, no
vunit bindings and no nested block emits exactly the
component-specification header, an empty indentation scope, a line
break and the `end for;` footer copied from `end_token - 2`,
`end_token - 1` and `end_token`. -/
theorem c6_component_configuration_empty (f : VHDLFormatter)
    (spec : ComponentSpecification) (span : TokenSpan) :
    format_component_configuration f
      (ComponentConfiguration.mk spec none [] none span) =
      Except.ok (format_component_specification spec ++
        [OutEvent.indentIn, OutEvent.indentOut, OutEvent.lineBreak,
         OutEvent.copyToken (span.end_token - 2), OutEvent.whitespace,
         OutEvent.copyToken (span.end_token - 1),
         OutEvent.copyToken span.end_token]) := by
  rw [format_component_configuration]
  simp [format_v_unit_binding_indications, List.append_assoc]
  rfl

/-- Claim C7: in `format_binding_indication` the generic-map clause,
when present, sits in its own scoped-indentation region preceded by a
line break, the port-map clause likewise in a separate region that is
not nested inside the first (the head of the trace before the two
regions contains no indentation events, and the first region closes
before the second opens), and the terminating `;` is copied after both
regions have closed. -/
theorem c7_binding_indication_map_scopes (f : VHDLFormatter)
    (entity_aspect : Option EntityAspect)
    (generic_map port_map : Option MapAspect) (span : TokenSpan) :
    ∃ head, no_indent_events head = true ∧
      format_binding_indication f
        (BindingIndication.mk entity_aspect generic_map port_map span) =
        head ++
        (match generic_map with
         | some map_aspect =>
           [OutEvent.indentIn, OutEvent.lineBreak, OutEvent.mapAspect map_aspect,
            OutEvent.indentOut]
         | none => []) ++
        (match port_map with
         | some map_aspect =>
           [OutEvent.indentIn, OutEvent.lineBreak, OutEvent.mapAspect map_aspect,
            OutEvent.indentOut]
         | none => []) ++
        [OutEvent.copyToken span.end_token] := by
  cases entity_aspect with
  | none => exact ⟨[OutEvent.copyToken span.start_token], rfl, rfl⟩
  | some aspect =>
    cases aspect with
    | Entity entity architecture =>
      cases architecture with
      | some arch =>
        exact ⟨[OutEvent.copyToken span.start_token, OutEvent.whitespace,
          OutEvent.copyToken (span.start_token + 1), OutEvent.whitespace,
          OutEvent.formatName entity, OutEvent.copyToken (arch.token - 1),
          OutEvent.copyToken arch.token, OutEvent.copyToken (arch.token + 1)],
          rfl, rfl⟩
      | none =>
        exact ⟨[OutEvent.copyToken span.start_token, OutEvent.whitespace,
          OutEvent.copyToken (span.start_token + 1), OutEvent.whitespace,
          OutEvent.formatName entity], rfl, rfl⟩
    | Configuration config =>
      exact ⟨[OutEvent.copyToken span.start_token, OutEvent.whitespace,
        OutEvent.copyToken (span.start_token + 1), OutEvent.whitespace,
        OutEvent.formatName config], rfl, rfl⟩
    | Open =>
      exact ⟨[OutEvent.copyToken span.start_token, OutEvent.whitespace,
        OutEvent.copyToken (span.start_token + 1), OutEvent.whitespace],
        rfl, rfl⟩

/-- Claim C8: `format_configuration_specification` emits the closing
`end for;` (line break, copied `end`, one space, copied `for`, copied
span-final `;`) exactly when the optional end token was recorded from
source; when it is absent, nothing at all is emitted after the
indented binding-indication/vunit region. -/
theorem c8_configuration_specification_end_for (f : VHDLFormatter)
    (configuration : ConfigurationSpecification) :
    (configuration.end_token = none →
      format_configuration_specification f configuration =
        format_component_specification configuration.spec ++
        [OutEvent.indentIn, OutEvent.lineBreak] ++
        format_binding_indication f configuration.bind_ind ++
        format_v_unit_binding_indications f configuration.vunit_bind_inds ++
        [OutEvent.indentOut]) ∧
    (∀ end_token, configuration.end_token = some end_token →
      format_configuration_specification f configuration =
        format_component_specification configuration.spec ++
        [OutEvent.indentIn, OutEvent.lineBreak] ++
        format_binding_indication f configuration.bind_ind ++
        format_v_unit_binding_indications f configuration.vunit_bind_inds ++
        [OutEvent.indentOut] ++
        [OutEvent.lineBreak, OutEvent.copyToken end_token, OutEvent.whitespace,
         OutEvent.copyToken (end_token + 1),
         OutEvent.copyToken configuration.span.end_token]) := by
  constructor
  · intro h
    rw [format_configuration_specification, h]
    simp
  · intro end_token h
    rw [format_configuration_specification, h]

/-- Witness for C8: one configuration specification with the optional
end token recorded and one without. -/
theorem c8_configuration_specification_end_for_witness :
    spec_without_end.end_token = none ∧ spec_with_end.end_token = some 8 ∧
    format_configuration_specification sample_formatter spec_without_end =
      format_component_specification spec_without_end.spec ++
      [OutEvent.indentIn, OutEvent.lineBreak] ++
      format_binding_indication sample_formatter spec_without_end.bind_ind ++
      format_v_unit_binding_indications sample_formatter
        spec_without_end.vunit_bind_inds ++
      [OutEvent.indentOut] ∧
    format_configuration_specification sample_formatter spec_with_end =
      format_component_specification spec_with_end.spec ++
      [OutEvent.indentIn, OutEvent.lineBreak] ++
      format_binding_indication sample_formatter spec_with_end.bind_ind ++
      format_v_unit_binding_indications sample_formatter
        spec_with_end.vunit_bind_inds ++
      [OutEvent.indentOut] ++
      [OutEvent.lineBreak, OutEvent.copyToken 8, OutEvent.whitespace,
       OutEvent.copyToken 9, OutEvent.copyToken spec_with_end.span.end_token] :=
  ⟨rfl, rfl,
   (c8_configuration_specification_end_for sample_formatter spec_without_end).1
     rfl,
   (c8_configuration_specification_end_for sample_formatter spec_with_end).2 8
     rfl⟩

/-- Claim C10: the comma peek-ahead of `format_v_unit_indication` is
total at the token-stream boundary — when `get_token` at a name's span
end + 1 returns absent, the element contributes only its name, with no
comma, no space and no fatal violation (the function is total by
construction, returning a plain trace), and the full indication trace
remains the header, the per-element traces in order, and the copied
end token. -/
theorem c10_vunit_peek_total (f : VHDLFormatter) (v : VUnitBindingIndication)
    (v_unit : WithTokenSpan Name) (hmem : v_unit ∈ v.vunit_list)
    (habsent : f.tokens.get_token (v_unit.span.end_token + 1) = none) :
    format_v_unit_element f v_unit = [OutEvent.formatName v_unit] ∧
    format_v_unit_indication f v =
      [OutEvent.copyToken v.span.start_token, OutEvent.whitespace,
       OutEvent.copyToken (v.span.start_token + 1), OutEvent.whitespace] ++
      (v.vunit_list.map (format_v_unit_element f)).flatten ++
      [OutEvent.copyToken v.span.end_token] := by
  constructor
  · rw [format_v_unit_element, comma_at, habsent]
    rfl
  · rw [format_v_unit_indication]

/-- Witness for C10: a name ending at the last token of a finite
stream; the peek one past the end is absent and only the name is
emitted. -/
theorem c10_vunit_peek_total_witness :
    (WithTokenSpan.mk (Name.mk 12) (TokenSpan.mk 8 9)) ∈
      boundary_vunit_binding.vunit_list ∧
    short_formatter.tokens.get_token
      ((WithTokenSpan.mk (Name.mk 12) (TokenSpan.mk 8 9)).span.end_token + 1) =
      none ∧
    format_v_unit_element short_formatter
      (WithTokenSpan.mk (Name.mk 12) (TokenSpan.mk 8 9)) =
      [OutEvent.formatName (WithTokenSpan.mk (Name.mk 12) (TokenSpan.mk 8 9))] :=
  ⟨by decide, by decide,
   (c10_vunit_peek_total short_formatter boundary_vunit_binding
     (WithTokenSpan.mk (Name.mk 12) (TokenSpan.mk 8 9)) (by decide)
     (by decide)).1⟩

end VhdlFmt
